import Mathlib

/-!
Verification of the MultiAgentBlogBuilder pipeline (a Python repository) against
its natural-language specification.

The Python sources are shallowly embedded: text is `List Char`, Python string
primitives (slicing, `rfind`, `strip`, `split`, `replace`, `in`, `lower`) are
modelled with Python's exact semantics (including negative-index normalisation
of slice bounds), machine floats in the 90 %-shrink comparison are modelled as
exact rationals, the external collaborators (the LLM completion service, the
HTTP fetcher, the HTML and JSON parsers, the random generator and the clock)
are oracle fields of an `Env` record, and a raised Python exception is
`Except.error`.  `while` loops whose termination is in question are given
explicit fuel and return `Option`: `none` means the loop has not finished
within the given fuel, and a result independent of sufficiently large fuel is
the loop's true behaviour.
-/

namespace Blog

/-- Text is a list of characters, as Python strings are sequences of code points. -/
abbrev Str := List Char

/-- Shorthand turning a Lean string literal into the `Str` it denotes. -/
def S (s : String) : Str := s.data

/-- Python's `\w` class over the ASCII texts this program handles:
letters, digits and underscore. -/
def isWordChar (c : Char) : Bool := c.isAlphanum || c = '_'

/-- Python's `\s` class (the whitespace characters `str.strip` also removes). -/
def isSpaceChar (c : Char) : Bool :=
  c = ' ' || c = '\t' || c = '\n' || c = '\x0d' || c = '\x0b' || c = '\x0c'

/-- Python `str.lower` (ASCII). -/
def pyLower (s : Str) : Str := s.map Char.toLower

/-- Python slice-bound normalisation: a negative index counts from the end and
is clamped at 0; a nonnegative index is clamped at the length. -/
def pyNorm (n : Nat) (i : Int) : Nat :=
  if i < 0 then ((n : Int) + i).toNat else min i.toNat n

/-- Python `s[a:b]` with the full slice semantics (negative bounds allowed). -/
def pySlice (s : Str) (a b : Int) : Str :=
  (s.take (pyNorm s.length b)).drop (pyNorm s.length a)

/-- Does `sub` occur in `s` starting at index `i`? -/
def matchesAt (s : Str) (i : Nat) (sub : Str) : Bool :=
  sub.isPrefixOf (s.drop i)

/-- Scan `i, i-1, ..., lo` for the highest index at which `sub` occurs. -/
def rfindDown (s sub : Str) (lo : Nat) : Nat → Option Nat
  | 0 => if lo = 0 && matchesAt s 0 sub then some 0 else none
  | i + 1 =>
    if lo ≤ i + 1 && matchesAt s (i + 1) sub then some (i + 1) else rfindDown s sub lo i

/-- Python `s.rfind(sub, a, b)`: the highest index of an occurrence of `sub`
contained in `s[a:b]`, or `-1`.  `a` and `b` follow slice normalisation. -/
def pyRfind (s sub : Str) (a b : Int) : Int :=
  let lo := pyNorm s.length a
  let hi := pyNorm s.length b
  if sub.length ≤ hi then
    match rfindDown s sub lo (hi - sub.length) with
    | some i => (i : Int)
    | none => -1
  else -1

/-- Python `sub in s` (substring containment). -/
def containsSub (sub : Str) : Str → Bool
  | [] => sub.isEmpty
  | c :: rest => sub.isPrefixOf (c :: rest) || containsSub sub rest

/-- Python `str.strip()` with no argument: remove whitespace from both ends. -/
def pyStrip (s : Str) : Str :=
  ((s.dropWhile isSpaceChar).reverse.dropWhile isSpaceChar).reverse

/-- `count_words` (src/utils.py): the number of `\b\w+\b` matches, i.e. of
maximal runs of word characters. -/
def count_words : Str → Nat :=
  go false
where
  /-- Count the starts of word-character runs; `inWord` tells whether the
  previous character was a word character. -/
  go (inWord : Bool) : Str → Nat
    | [] => 0
    | c :: rest =>
      if isWordChar c then (if inWord then 0 else 1) + go true rest
      else go false rest

/-- Number of non-overlapping occurrences of a nonempty pattern, scanning left
to right, as `len(re.findall(...))` counts occurrences of a literal pattern. -/
def countOcc (pat : Str) : Str → Nat
  | [] => 0
  | c :: rest =>
    if pat ≠ [] && pat.isPrefixOf (c :: rest) then
      1 + countOcc pat ((c :: rest).drop pat.length)
    else countOcc pat rest
termination_by s => s.length
decreasing_by
  · simp only [List.length_drop, List.length_cons]
    rename_i hp
    have : 0 < pat.length := by
      cases pat with
      | nil => simp at hp
      | cons a l => simp
    omega
  · simp

/-- Number of Python word-boundary positions of `s` (positions where exactly
one of the two neighbouring characters is a word character); what
`re.findall(r"\b\b", s)` would count for an empty keyword. -/
def countBoundaries (s : Str) : Nat :=
  (List.range (s.length + 1)).countP fun i =>
    let left := i ≠ 0 && isWordChar (s.getD (i - 1) ' ')
    let right := i < s.length && isWordChar (s.getD i ' ')
    left ≠ right

/-- Is `i` the start of a `\b`-delimited occurrence of the literal `pat` in
`s`?  The boundary assertion before (after) the match depends on whether the
pattern's first (last) character is a word character, exactly as `\b` does. -/
def wholeWordAt (s pat : Str) (i : Nat) : Bool :=
  matchesAt s i pat
    && (if isWordChar (pat.headD ' ') then i = 0 || !isWordChar (s.getD (i - 1) ' ')
        else i ≠ 0 && isWordChar (s.getD (i - 1) ' '))
    && (if isWordChar (pat.getLastD ' ') then
          s.length ≤ i + pat.length || !isWordChar (s.getD (i + pat.length) ' ')
        else i + pat.length < s.length && isWordChar (s.getD (i + pat.length) ' '))

/-- Count of non-overlapping whole-word occurrences of `pat` in `s` from
position `i` on, scanning left to right as `re.findall` does. -/
def countWholeWordFrom (s pat : Str) : Nat → Nat
  | i =>
    if s.length < i then 0
    else if wholeWordAt s pat i then
      if pat.length = 0 then 0
      else 1 + countWholeWordFrom s pat (i + pat.length)
    else countWholeWordFrom s pat (i + 1)
termination_by i => s.length + 1 - i
decreasing_by all_goals omega

/-- `len(re.findall(r"\b" + re.escape(pat) + r"\b", s))` for a nonempty
lowercase keyword `pat` against lowercase text `s`. -/
def countWholeWord (s pat : Str) : Nat :=
  if pat = [] then countBoundaries s else countWholeWordFrom s pat 0

/-- `calculate_keyword_density` (src/utils.py). The float division is modelled
as exact rational division. -/
def calculate_keyword_density (text : Str) (keywords : List Str) : ℚ :=
  if keywords = [] || text = [] then 0
  else
    let word_count := count_words text
    if word_count = 0 then 0
    else
      let keyword_count :=
        (keywords.map fun kw => countWholeWord (pyLower text) (pyLower kw)).sum
      (keyword_count : ℚ) / (word_count : ℚ)

/-- Maximal runs of word characters of `s`, in order (`re.findall(r"\b\w+\b", s)`). -/
def wordRuns (s : Str) : List Str :=
  (s.foldr
    (fun c (acc : List Str × Bool) =>
      if isWordChar c then
        match acc with
        | (runs, true) => ((c :: runs.headD []) :: runs.tail, true)
        | (runs, false) => ([c] :: runs, true)
      else (acc.1, false))
    ([], false)).1

/-- The stop-word set of `extract_keywords_from_text` (src/utils.py). -/
def stop_words : List Str :=
  [S "a", S "an", S "the", S "and", S "or", S "but", S "is", S "are", S "was",
   S "were", S "to", S "of", S "in", S "for", S "with", S "on", S "at", S "by",
   S "from", S "about", S "as", S "into", S "like", S "through", S "after",
   S "over", S "between", S "out", S "this", S "that", S "these", S "those",
   S "there", S "here", S "how", S "why", S "when", S "where", S "who",
   S "whom", S "which", S "what", S "would", S "could", S "should", S "will",
   S "shall", S "may", S "might", S "must", S "can", S "then"]

/-- Insert `x` behind every element it does not strictly precede (`lt x y`
false), so equal-rank elements keep their original order. -/
def stableInsert {α : Type} (lt : α → α → Bool) (x : α) : List α → List α
  | [] => [x]
  | y :: ys => if lt x y then x :: y :: ys else y :: stableInsert lt x ys

/-- Stable insertion sort: Python's `sorted` is stable, and with
`lt a b = key b < key a` this is exactly
`sorted(l, key=key, reverse=True)` — descending by key, ties kept in
original order. -/
def stableSortBy {α : Type} (lt : α → α → Bool) (l : List α) : List α :=
  l.foldl (fun acc x => stableInsert lt x acc) []

/-- The distinct elements of `l` in first-occurrence order (the key order of a
Python dict filled by repeated insertion). -/
def firstSeen (l : List Str) : List Str :=
  go [] l
where
  go (seen : List Str) : List Str → List Str
    | [] => []
    | x :: rest => if seen.contains x then go seen rest else x :: go (x :: seen) rest

/-- `extract_keywords_from_text` (src/utils.py): lowercase word tokens longer
than 3 characters that are not stop words, ranked by descending frequency with
ties in first-encountered order (Python's `sorted` is stable). -/
def extract_keywords_from_text (text : Str) (max_keywords : Nat) : List Str :=
  let words := wordRuns (pyLower text)
  let counted := words.filter fun w => decide (3 < w.length) && !stop_words.contains w
  let keys := firstSeen counted
  let sorted_words := stableSortBy (fun a b => counted.count b < counted.count a) keys
  sorted_words.take max_keywords

/-- The retry loop of `retry_with_exponential_backoff` (src/utils.py).
`op k` is the outcome of the k-th call of the wrapped function, `r k` the
jitter drawn before the k-th sleep; the returned list is the sequence of
`time.sleep` durations. `remaining` is `max_retries - num_retries`. -/
def retryGo {E α : Type} (op : Nat → Except E α) (base : ℚ) (jitter : Bool)
    (r : Nat → ℚ) : Nat → Nat → ℚ → Except E α × List ℚ
  | remaining, k, delay =>
    match op k with
    | .ok a => (.ok a, [])
    | .error e =>
      match remaining with
      | 0 => (.error e, [])
      | rem + 1 =>
        let d := if jitter then delay * base * (1 + r k) else delay * base
        let rest := retryGo op base jitter r rem (k + 1) d
        (rest.1, d :: rest.2)

/-- `retry_with_exponential_backoff` (src/utils.py), with the wrapped call
abstracted as the oracle `op` and `random.random()` as the oracle `r`. -/
def retry_with_exponential_backoff {E α : Type} (op : Nat → Except E α)
    (max_retries : Nat) (initial_delay exponential_base : ℚ) (jitter : Bool)
    (r : Nat → ℚ) : Except E α × List ℚ :=
  retryGo op exponential_base jitter r max_retries 0 initial_delay

/-- The breakpoint selection inside one iteration of `split_text_into_chunks`
(src/utils.py): the value of `end` after the paragraph / sentence / space
preferences have been applied to the window `[start, start + max_chars)`. -/
def computeEnd (text : Str) (start : Int) (max_chars : Nat) : Int :=
  let e0 := start + (max_chars : Int)
  let paragraph_break := pyRfind text (S "\n\n") start e0
  let sentence_break := pyRfind text (S ". ") start e0
  if paragraph_break > start + ((max_chars / 2 : Nat) : Int) then paragraph_break + 2
  else if sentence_break > start + ((max_chars / 3 : Nat) : Int) then sentence_break + 2
  else
    let space_position := pyRfind text (S " ") start e0
    if space_position > start then space_position + 1 else e0

/-- The `while start < len(text)` loop of `split_text_into_chunks`, with fuel:
`none` means the loop has not finished within `fuel` iterations. -/
def splitLoop (text : Str) (max_chars overlap : Nat) : Nat → Int → Option (List Str)
  | 0, _ => none
  | fuel + 1, start =>
    if start < (text.length : Int) then
      if (text.length : Int) ≤ start + (max_chars : Int) then
        some [pySlice text start (text.length : Int)]
      else
        (splitLoop text max_chars overlap fuel
            (computeEnd text start max_chars - (overlap : Int))).map
          (fun rest => pySlice text start (computeEnd text start max_chars) :: rest)
    else some []

/-- `split_text_into_chunks` (src/utils.py). -/
def split_text_into_chunks (text : Str) (max_tokens overlap : Nat) (fuel : Nat) :
    Option (List Str) :=
  let max_chars := max_tokens * 4
  if text.length ≤ max_chars then some [text]
  else splitLoop text max_chars overlap fuel 0

/-- A rendered subheading as `create_markdown_blog` consumes it. -/
structure MDSub where
  title : Str
  content : Str
deriving DecidableEq

/-- A rendered section as `create_markdown_blog` consumes it. -/
structure MDSection where
  heading : Str
  content : Str
  subheadings : List MDSub
deriving DecidableEq

/-- `create_markdown_blog` (src/utils.py). The `'key' in section` tests are
always true for the records `generate_content` builds, so only the
truthiness (non-emptiness) tests remain. -/
def create_markdown_blog (title : Str) (sections : List MDSection) : Str :=
  sections.foldl
    (fun acc sec =>
      let acc := if sec.heading ≠ [] then acc ++ S "## " ++ sec.heading ++ S "\n\n" else acc
      let acc := if sec.content ≠ [] then acc ++ sec.content ++ S "\n\n" else acc
      sec.subheadings.foldl
        (fun acc sub =>
          let acc := if sub.title ≠ [] then acc ++ S "### " ++ sub.title ++ S "\n\n" else acc
          if sub.content ≠ [] then acc ++ sub.content ++ S "\n\n" else acc)
        acc)
    (S "# " ++ title ++ S "\n\n")

/-- Python `s.split(sep)` for a nonempty separator (every call site passes
one; Python raises `ValueError` on an empty separator). -/
def pySplit (sep s : Str) : List Str :=
  go [] s
where
  go (cur : Str) : Str → List Str
    | [] => [cur.reverse]
    | c :: rest =>
      if sep ≠ [] && sep.isPrefixOf (c :: rest) then
        cur.reverse :: go [] (rest.drop (sep.length - 1))
      else go (c :: cur) rest
  termination_by t => t.length
  decreasing_by
    · simp only [List.length_drop, List.length_cons]; omega
    · simp

/-- Python `s.replace(old, new)` for a nonempty `old` (every call site passes
one): replace all non-overlapping occurrences, left to right. -/
def pyReplace (s old new : Str) : Str :=
  if old = [] then s else go s
where
  go : Str → Str
    | [] => []
    | c :: rest =>
      if old.isPrefixOf (c :: rest) then new ++ go (rest.drop (old.length - 1))
      else c :: go rest
  termination_by t => t.length
  decreasing_by
    · simp only [List.length_drop, List.length_cons]; omega
    · simp

/-- Case-insensitive occurrence of `pat` in `s` at index `i`. -/
def ciMatchesAt (s : Str) (i : Nat) (pat : Str) : Bool :=
  (pyLower pat).isPrefixOf (pyLower (s.drop i))

/-- The `\b` assertion before index `i` of `s`, for a pattern whose first
character is a word character iff `firstWord`. -/
def bndBefore (s : Str) (i : Nat) (firstWord : Bool) : Bool :=
  if firstWord then i = 0 || !isWordChar (s.getD (i - 1) ' ')
  else i ≠ 0 && isWordChar (s.getD (i - 1) ' ')

/-- The `\b` assertion after index `j` of `s`, for a pattern whose last
character is a word character iff `lastWord`. -/
def bndAfter (s : Str) (j : Nat) (lastWord : Bool) : Bool :=
  if lastWord then s.length ≤ j || !isWordChar (s.getD j ' ')
  else j < s.length && isWordChar (s.getD j ' ')

/-- `re.sub(r"\b" + re.escape(typo) + r"\b", repl, s, flags=re.IGNORECASE)`
for a nonempty literal `typo`: scan left to right over the original string,
replacing each boundary-delimited case-insensitive occurrence. -/
def reSubGo (s typo repl : Str) : Nat → Str
  | i =>
    if s.length ≤ i then []
    else if ciMatchesAt s i typo
        && bndBefore s i (isWordChar (typo.headD ' '))
        && bndAfter s (i + typo.length) (isWordChar (typo.getLastD ' ')) then
      repl ++ reSubGo s typo repl (i + max 1 typo.length)
    else s.getD i ' ' :: reSubGo s typo repl (i + 1)
termination_by i => s.length - i
decreasing_by all_goals omega

/-- Whole-word case-insensitive `re.sub` of a literal, as `_fix_basic_issues`
uses it. -/
def reSubWordCI (typo repl s : Str) : Str :=
  if typo = [] then s else reSubGo s typo repl 0

/-- The `typos` table of `ReviewAgent._fix_basic_issues`
(src/agents/review_agent.py), in source order. -/
def typosTable : List (Str × Str) :=
  [(S "teh ", S "the "), (S "adn ", S "and "), (S "waht ", S "what "),
   (S "taht ", S "that "), (S "thier ", S "their "), (S "recieve", S "receive"),
   (S "alot ", S "a lot "), (S "its ", S "it's "), (S "occurr", S "occur"),
   (S "managment", S "management"), (S "accomodat", S "accommodat"),
   (S "enviroment", S "environment")]

/-- `re.sub(r" {2,}", " ", s)`: collapse every run of 2+ spaces to one. -/
def collapseSpaces : Str → Str
  | [] => []
  | [c] => [c]
  | c :: d :: rest =>
    if c = ' ' && d = ' ' then collapseSpaces (' ' :: rest)
    else c :: collapseSpaces (d :: rest)
termination_by s => s.length

/-- `re.sub(r"\n{3,}", "\n\n", s)`: collapse every run of 3+ newlines to two. -/
def collapseNewlines : Str → Str
  | a :: b :: c :: rest =>
    if a = '\n' && b = '\n' && c = '\n' then collapseNewlines ('\n' :: '\n' :: rest)
    else a :: collapseNewlines (b :: c :: rest)
  | s => s
termination_by s => s.length

/-- `re.sub(r"\.(?=[A-Za-z])", ". ", s)`: a space after every period directly
followed by a letter (the letter is not consumed). -/
def fixPeriods : Str → Str
  | [] => []
  | c :: rest =>
    if c = '.' && (rest.headD ' ').isAlpha then '.' :: ' ' :: fixPeriods rest
    else c :: fixPeriods rest

/-- `ReviewAgent._fix_basic_issues` (src/agents/review_agent.py): typo table,
space collapapse, newline collapse, period spacing, in source order. -/
def fix_basic_issues (content : Str) : Str :=
  let fixed := typosTable.foldl (fun acc t => reSubWordCI t.1 t.2 acc) content
  fixPeriods (collapseNewlines (collapseSpaces fixed))

/-- `ReviewAgent.review_content` (src/agents/review_agent.py). `pass1` and
`pass2` are the two completion-chain calls; `Except.error` is a raised
exception. The float comparison `final < initial * 0.9` is modelled as the
exact rational comparison, written over naturals as
`10 * final < 9 * initial`. -/
def review_content (pass1 pass2 : Str → Except String Str) (content : Str) : Str :=
  let initial_word_count := count_words content
  match pass1 content with
  | .error _ => fix_basic_issues content
  | .ok reviewed =>
    match pass2 reviewed with
    | .error _ => fix_basic_issues content
    | .ok final_content =>
      if 10 * count_words final_content < 9 * initial_word_count then
        fix_basic_issues content
      else final_content

/-- Decimal rendering of a natural number as text (Python's `f"{n}"`). -/
def natStr (n : Nat) : Str := (toString n).data

/-- A `requests` response as `search_web` consumes it. -/
structure HttpResponse where
  status_code : Int
  text : Str

/-- One `div.g` node of the parsed results page: the text of its `h3` (if
any), the `href` of its link element (if the element exists and has one), and
the text of its snippet `div` (if any). -/
structure GItem where
  title : Option Str
  href : Option Str
  snippet : Option Str

/-- A search result record `{title, link, snippet}` (src/web_scraper.py). -/
structure SearchResult where
  title : Str
  link : Str
  snippet : Str
deriving DecidableEq

/-- A `source_metadata` entry built by `research_topic`
(src/agents/research_agent.py). -/
structure SourceMeta where
  url : Str
  content_length : Nat
  extracted_keywords : List Str
deriving DecidableEq

/-- The research-data dictionary `research_topic` returns; every key is always
present. -/
structure ResearchData where
  topic : Str
  keywords : Str
  synthesized_research : Str
  source_metadata : List SourceMeta
  timestamp : Str
deriving DecidableEq

/-- A subheading object of a (possibly partially populated) parsed outline;
`none` is an absent key. -/
structure SubheadingO where
  title : Option Str
  key_points : Option (List Str)
  target_word_count : Option Int
deriving DecidableEq

/-- A section object of a parsed outline; `none` is an absent key. -/
structure SectionO where
  heading : Option Str
  subheadings : Option (List SubheadingO)
  key_points : Option (List Str)
  target_word_count : Option Int
deriving DecidableEq

/-- An outline object as `create_outline` returns it; `none` is an absent key. -/
structure OutlineO where
  title : Option Str
  target_keywords : Option (List Str)
  estimated_word_count : Option Int
  sections : Option (List SectionO)
deriving DecidableEq

/-- The `keyword_analysis` part of an SEO analysis;
`calculated_keyword_density` is the key `analyze_seo` adds after parsing. -/
structure KeywordAnalysisJ where
  primary_keyword_density : ℚ
  keyword_distribution : Str
  suggestions : List Str
  calculated_keyword_density : Option ℚ
deriving DecidableEq

/-- The `structure_analysis` part of an SEO analysis. -/
structure StructureAnalysisJ where
  heading_quality : Str
  content_organization : Str
  suggestions : List Str
deriving DecidableEq

/-- The `content_quality` part of an SEO analysis. -/
structure ContentQualityJ where
  readability_score : Str
  content_depth : Str
  suggestions : List Str
deriving DecidableEq

/-- An SEO-analysis dictionary as `analyze_seo` returns it; `none` is an
absent key (the parsed JSON need not contain every key). -/
structure SeoAnalysisJ where
  keyword_analysis : Option KeywordAnalysisJ
  structure_analysis : Option StructureAnalysisJ
  content_quality : Option ContentQualityJ
  overall_score : Option Int
  priority_improvements : Option (List Str)
deriving DecidableEq

/-- The external collaborators, as oracles: the HTTP fetcher and extractor,
the HTML and JSON parsers, every completion chain (one field per prompt
template, taking that template's bound variables), the jitter and
`random.choice` draws, and the clock.  `Except.error` models a raised
exception. -/
structure Env where
  /-- `trafilatura.fetch_url`. -/
  fetchUrl : Str → Except String Str
  /-- `trafilatura.extract` (may return `None`). -/
  extractText : Str → Except String (Option Str)
  /-- `requests.get` on the search URL. -/
  httpGet : Str → Except String HttpResponse
  /-- `BeautifulSoup(...)` and `soup.select("div.g")`. -/
  parseHtml : Str → Except String (List GItem)
  /-- `random.random()` draws of the retry wrapper, by sleep index. -/
  retryR : Nat → ℚ
  /-- the trend-analysis chain (variable: trend_data). -/
  trendC : Str → Except String Str
  /-- the research-synthesis chain (topic, research_data, keywords). -/
  synthC : Str → Str → Str → Except String Str
  /-- the outline chain (topic, research_data, keywords). -/
  outlineC : Str → Str → Str → Except String Str
  /-- `json.loads` applied to an outline response (`none` = `JSONDecodeError`). -/
  outlineParse : Str → Option OutlineO
  /-- the introduction chain (title, topic, target_word_count, research_information). -/
  introC : Str → Str → Int → Str → Except String Str
  /-- the conclusion chain (title, topic, target_word_count, key_points). -/
  conclC : Str → Str → Int → Str → Except String Str
  /-- the section-content chain (topic, heading, subheadings, key_points,
  target_word_count, research_information). -/
  sectionC : Str → Str → Str → Str → Int → Str → Except String Str
  /-- the SEO-analysis chain (topic, keywords, content). -/
  analysisC : Str → Str → Str → Except String Str
  /-- `json.loads` applied to an analysis response (`none` = `JSONDecodeError`). -/
  analysisParse : Str → Option SeoAnalysisJ
  /-- the SEO-optimization chain (topic, keywords, content). -/
  rewriteC : Str → Str → Str → Except String Str
  /-- the content-review chain (content). -/
  reviewPass1 : Str → Except String Str
  /-- the final-check chain (content). -/
  reviewPass2 : Str → Except String Str
  /-- `time.strftime("%Y")`. -/
  currentYear : Str
  /-- `time.strftime("%Y-%m-%d %H:%M:%S")`. -/
  timestampS : Str
  /-- the `random.choice` draw of `find_trending_topic`'s empty-results branch. -/
  rand1 : Nat
  /-- the `random.choice` draw of `find_trending_topic`'s exception handler. -/
  rand2 : Nat

namespace Config

/-- `Config.MAX_RESEARCH_SOURCES` (src/config.py). -/
def MAX_RESEARCH_SOURCES : Int := 5

/-- `Config.FALLBACK_HR_TOPICS` (src/config.py). -/
def FALLBACK_HR_TOPICS : List Str :=
  [S "Employee Retention Strategies", S "Remote Work Best Practices",
   S "Diversity and Inclusion in the Workplace", S "Performance Management Systems",
   S "Employee Wellness Programs", S "HR Technology Trends",
   S "Recruitment Automation", S "Workplace Culture Development",
   S "Employee Engagement Strategies", S "HR Compliance Updates"]

end Config

/-- `get_website_text_content` (src/web_scraper.py): empty string on any
failure, never raises. -/
def get_website_text_content (env : Env) (url : Str) : Str :=
  match env.fetchUrl url with
  | .error _ => []
  | .ok downloaded =>
    if downloaded = [] then []
    else
      match env.extractText downloaded with
      | .error _ => []
      | .ok none => []
      | .ok (some text) => if text = [] then [] else text

/-- The search URL `search_web` builds from the query. -/
def searchUrl (query : Str) : Str :=
  S "https://www.google.com/search?q=" ++ pyReplace query (S " ") (S "+")

/-- The body of `search_web` (src/web_scraper.py) before the retry decorator:
the whole body is inside `try ... except Exception: return []`, and a non-200
status also yields `[]`. -/
def search_web_inner (env : Env) (query : Str) (num_results : Int) : List SearchResult :=
  match env.httpGet (searchUrl query) with
  | .error _ => []
  | .ok response =>
    if response.status_code ≠ 200 then []
    else
      match env.parseHtml response.text with
      | .error _ => []
      | .ok divs =>
        (divs.take (pyNorm divs.length num_results)).filterMap fun it =>
          match it.title, it.href with
          | some title, some link0 =>
            let link :=
              if (S "/url?q=").isPrefixOf link0 then
                (pySplit (S "&") ((pySplit (S "/url?q=") link0).getD 1 [])).headD []
              else link0
            some { title := title, link := link, snippet := it.snippet.getD [] }
          | _, _ => none

/-- `search_web` (src/web_scraper.py): the inner body wrapped by
`retry_with_exponential_backoff` at its default parameters; the second
component is the sequence of back-off sleeps performed. -/
def search_web (env : Env) (query : Str) (num_results : Int) :
    Except String (List SearchResult) × List ℚ :=
  retry_with_exponential_backoff
    (fun _ => .ok (search_web_inner env query num_results)) 5 1 2 true env.retryR

/-- The URL-deduplication loop of `search_latest_hr_trends`. -/
def dedupByLink (l : List SearchResult) : List SearchResult :=
  go [] l
where
  go (seen_urls : List Str) : List SearchResult → List SearchResult
    | [] => []
    | r :: rest =>
      if seen_urls.contains r.link then go seen_urls rest
      else r :: go (r.link :: seen_urls) rest

/-- `search_latest_hr_trends` (src/web_scraper.py). -/
def search_latest_hr_trends (env : Env) : Except String (List SearchResult) := do
  let queries :=
    [S "latest HR trends " ++ env.currentYear,
     S "human resources challenges " ++ env.currentYear,
     S "trending topics in HR " ++ env.currentYear,
     S "employee engagement strategies",
     S "remote work HR challenges",
     S "HR technology innovations"]
  let all_results ← queries.foldlM
    (fun (acc : List SearchResult) query => do
      let results ← (search_web env query 3).1
      pure (acc ++ results))
    []
  pure ((dedupByLink all_results).take 10)

/-- `scrape_multiple_sources` (src/web_scraper.py): per-URL failures are
swallowed, empty fetches skipped. -/
def scrape_multiple_sources (env : Env) (urls : List Str) : List (Str × Str) :=
  urls.filterMap fun url =>
    let content := get_website_text_content env url
    if content ≠ [] then some (url, content) else none

/-- `ResearchAgent.research_topic` (src/agents/research_agent.py). `none` is
a run of the chunking loop that does not finish within `fuel` iterations;
`some (.error e)` a propagated exception. -/
def research_topic (env : Env) (topic keywords : Str) (fuel : Nat) :
    Option (Except String ResearchData) :=
  let search_query := if keywords ≠ [] then topic ++ S " " ++ keywords else topic
  match (search_web env search_query Config.MAX_RESEARCH_SOURCES).1 with
  | .error e => some (.error e)
  | .ok search_results =>
    let urls := search_results.map (·.link)
    let scraped_data := scrape_multiple_sources env urls
    let combined_research := scraped_data.foldl
      (fun acc p =>
        if p.2 ≠ [] then acc ++ S "\n\nSOURCE: " ++ p.1 ++ S "\n" ++ p.2.take 5000 ++ S "\n"
        else acc)
      []
    let source_metadata := scraped_data.filterMap fun p =>
      if p.2 ≠ [] then
        some { url := p.1, content_length := p.2.length,
               extracted_keywords := extract_keywords_from_text p.2 5 }
      else none
    match split_text_into_chunks combined_research 4000 200 fuel with
    | none => none
    | some research_chunks =>
      let synth := research_chunks.foldlM
        (fun (acc : Str) chunk => do
          let chunk_synthesis ← env.synthC topic chunk keywords
          pure (acc ++ chunk_synthesis ++ S "\n\n"))
        ([] : Str)
      match synth with
      | .error e => some (.error e)
      | .ok synthesized_research =>
        some (.ok { topic := topic, keywords := keywords,
                    synthesized_research := synthesized_research,
                    source_metadata := source_metadata, timestamp := env.timestampS })

/-- `ResearchAgent.find_trending_topic` (src/agents/research_agent.py): the
`try` body, then the `except Exception` handler that picks a random fallback
topic and researches it (an exception raised by that research propagates). -/
def find_trending_topic (env : Env) (fuel : Nat) :
    Option (Except String (Str × ResearchData)) :=
  let body : Option (Except String (Str × ResearchData)) :=
    match search_latest_hr_trends env with
    | .error e => some (.error e)
    | .ok trend_results =>
      if trend_results = [] then
        let selected_topic :=
          Config.FALLBACK_HR_TOPICS.getD (env.rand1 % Config.FALLBACK_HR_TOPICS.length) []
        match research_topic env selected_topic [] fuel with
        | none => none
        | some r => some (r.map fun rd => (selected_topic, rd))
      else
        let trend_urls :=
          (trend_results.take (pyNorm trend_results.length 5)).map (·.link)
        let scraped_data := scrape_multiple_sources env trend_urls
        let combined_trend_data :=
          (S "\n\n").intercalate
            (scraped_data.map fun p => S "Source: " ++ p.1 ++ S "\n" ++ p.2.take 3000)
        match env.trendC combined_trend_data with
        | .error e => some (.error e)
        | .ok resp =>
          let selected_topic := pyStrip resp
          match research_topic env selected_topic [] fuel with
          | none => none
          | some r => some (r.map fun rd => (selected_topic, rd))
  match body with
  | none => none
  | some (.ok v) => some (.ok v)
  | some (.error _) =>
    let selected_topic :=
      Config.FALLBACK_HR_TOPICS.getD (env.rand2 % Config.FALLBACK_HR_TOPICS.length) []
    match research_topic env selected_topic [] fuel with
    | none => none
    | some r => some (r.map fun rd => (selected_topic, rd))

/-- The hardcoded fallback outline of `PlanningAgent.create_outline`
(src/agents/planning_agent.py), built when both JSON parses fail. `keywords`
is the (possibly derived) keyword string in scope at that point. -/
def fallback_outline (topic keywords : Str) : OutlineO :=
  { title := some (topic ++ S ": A Comprehensive Guide"),
    target_keywords := some (if keywords ≠ [] then pySplit (S ", ") keywords else []),
    estimated_word_count := some 2000,
    sections := some
      [{ heading := some (S "Introduction"), subheadings := some [],
         key_points := some [S "Introduction to the topic", S "Why it matters",
                             S "What will be covered"],
         target_word_count := some 200 },
       { heading := some (S "Understanding " ++ topic),
         subheadings := some
           [{ title := some (S "Key Concepts"),
              key_points := some [S "Important definitions", S "Core principles"],
              target_word_count := some 250 },
            { title := some (S "Current Trends"),
              key_points := some [S "Recent developments", S "Industry shifts"],
              target_word_count := some 250 }],
         key_points := some [], target_word_count := some 500 },
       { heading := some (S "Best Practices"),
         subheadings := some
           [{ title := some (S "Strategies for Implementation"),
              key_points := some [S "Practical approaches", S "Step-by-step guidance"],
              target_word_count := some 300 },
            { title := some (S "Common Challenges"),
              key_points := some [S "Potential obstacles", S "Solutions"],
              target_word_count := some 300 }],
         key_points := some [], target_word_count := some 600 },
       { heading := some (S "Case Studies"),
         subheadings := some
           [{ title := some (S "Success Stories"),
              key_points := some [S "Real-world examples", S "Outcomes"],
              target_word_count := some 300 }],
         key_points := some [], target_word_count := some 300 },
       { heading := some (S "Future Directions"), subheadings := some [],
         key_points := some [S "Emerging trends", S "Predictions",
                             S "Preparation strategies"],
         target_word_count := some 200 },
       { heading := some (S "Conclusion"), subheadings := some [],
         key_points := some [S "Summary of key points", S "Final thoughts",
                             S "Call to action"],
         target_word_count := some 200 }] }

/-- The markdown-fence cleaning of a failed JSON response, shared verbatim by
`create_outline` and `analyze_seo`: strip whitespace, drop a leading
` ```json ` fence (7 characters) and a trailing ` ``` ` fence, strip again. -/
def cleanJsonStr (raw : Str) : Str :=
  let cleaned := pyStrip raw
  let cleaned := if (S "```json").isPrefixOf cleaned then cleaned.drop 7 else cleaned
  let cleaned := if (S "```").isSuffixOf cleaned then cleaned.take (cleaned.length - 3) else cleaned
  pyStrip cleaned

/-- The keyword-derivation prologue of `PlanningAgent.create_outline`
(src/agents/planning_agent.py): when no keywords are given, gather the
sources' extracted keywords, rank by frequency (stable, first-seen order on
ties), take 5 and comma-join them. -/
def outlineKeywords (research_data : ResearchData) (keywords0 : Str) : Str :=
  if keywords0 = [] then
    let all_keywords := (research_data.source_metadata.map (·.extracted_keywords)).flatten
    let keys := firstSeen all_keywords
    let sorted_keywords :=
      stableSortBy (fun a b => all_keywords.count b < all_keywords.count a) keys
    (S ", ").intercalate (sorted_keywords.take 5)
  else keywords0

/-- `PlanningAgent.create_outline` (src/agents/planning_agent.py). The outer
`except` re-raises, so a failed completion call is `Except.error`; both JSON
parse failures fall back to `fallback_outline`. -/
def create_outline (env : Env) (topic : Str) (research_data : ResearchData)
    (keywords0 : Str) : Except String OutlineO :=
  let synthesized_research := research_data.synthesized_research
  let keywords := outlineKeywords research_data keywords0
  match env.outlineC topic synthesized_research keywords with
  | .error e => .error e
  | .ok outline_json_str =>
    match env.outlineParse outline_json_str with
    | some outline => .ok outline
    | none =>
      match env.outlineParse (cleanJsonStr outline_json_str) with
      | some outline => .ok outline
      | none => .ok (fallback_outline topic keywords)

/-- `SeoAgent.analyze_seo` (src/agents/seo_agent.py): local keyword density,
LLM analysis with the parse / clean / fixed-fallback ladder, and the
score-0 fallback when the completion call raises.  Never raises. -/
def analyze_seo (env : Env) (content topic keywords : Str) : SeoAnalysisJ :=
  let keyword_list := if keywords ≠ [] then (pySplit (S ",") keywords).map pyStrip else []
  let keyword_density : ℚ :=
    if keyword_list ≠ [] then calculate_keyword_density content keyword_list else 0
  let addDensity : SeoAnalysisJ → SeoAnalysisJ := fun analysis =>
    { analysis with keyword_analysis := (analysis.keyword_analysis.map
        fun ka => { ka with calculated_keyword_density := some keyword_density }) }
  match env.analysisC topic keywords content with
  | .error _ =>
    { keyword_analysis := some
        { primary_keyword_density := if keyword_list ≠ [] then keyword_density else 0,
          keyword_distribution := S "Error in analysis",
          suggestions := [S "Review keyword usage manually"],
          calculated_keyword_density := none },
      structure_analysis := some
        { heading_quality := S "Error in analysis",
          content_organization := S "Error in analysis",
          suggestions := [S "Review heading structure manually"] },
      content_quality := some
        { readability_score := S "Error in analysis",
          content_depth := S "Content contains " ++ natStr (count_words content) ++ S " words",
          suggestions := [S "Review content manually"] },
      overall_score := some 0,
      priority_improvements := some [S "Retry SEO analysis"] }
  | .ok analysis_json_str =>
    match env.analysisParse analysis_json_str with
    | some analysis => addDensity analysis
    | none =>
      match env.analysisParse (cleanJsonStr analysis_json_str) with
      | some analysis => addDensity analysis
      | none =>
        { keyword_analysis := some
            { primary_keyword_density := keyword_density,
              keyword_distribution := S "Unable to assess",
              suggestions := [S "Ensure keywords are distributed throughout the content"],
              calculated_keyword_density := none },
          structure_analysis := some
            { heading_quality := S "Unable to assess",
              content_organization := S "Unable to assess",
              suggestions := [S "Review heading structure", S "Ensure logical content flow"] },
          content_quality := some
            { readability_score := S "Unable to assess",
              content_depth := S "Content contains " ++ natStr (count_words content) ++ S " words",
              suggestions := [S "Ensure content is comprehensive", S "Check for readability"] },
          overall_score := some 50,
          priority_improvements := some [S "Optimize keyword usage", S "Review content structure"] }

/-- The `related_topics` table of `_add_internal_linking_suggestions`
(src/agents/seo_agent.py), in source order. -/
def related_topics : List (Str × Str) :=
  [(S "Employee Retention", S "employee retention strategies"),
   (S "Remote Work", S "remote work best practices"),
   (S "Diversity and Inclusion", S "diversity and inclusion in the workplace"),
   (S "Performance Management", S "effective performance management"),
   (S "Employee Wellness", S "employee wellness programs"),
   (S "HR Technology", S "hr technology trends"),
   (S "Recruitment", S "recruitment best practices"),
   (S "Employee Engagement", S "employee engagement strategies"),
   (S "Workplace Culture", S "building positive workplace culture"),
   (S "Leadership Development", S "leadership development programs")]

/-- `re.search(r"\b" + re.escape(pat) + r"\b", s, re.IGNORECASE)`: the
leftmost case-insensitive whole-word occurrence of `pat` in `s`. -/
def reSearchWordCI (pat s : Str) : Option Nat :=
  go 0
where
  go : Nat → Option Nat
    | i =>
      if s.length ≤ i then none
      else if ciMatchesAt s i pat
          && bndBefore s i (isWordChar (pat.headD ' '))
          && bndAfter s (i + pat.length) (isWordChar (pat.getLastD ' ')) then
        some i
      else go (i + 1)
  termination_by i => s.length - i
  decreasing_by omega

/-- The marker text whose presence suppresses further link suggestions. -/
def markerStr : Str := S "[INTERNAL LINK SUGGESTION"

/-- One iteration of the `related_topics` loop of
`_add_internal_linking_suggestions`: skip an entry subsumed by the topic,
else insert one suggestion after the leftmost whole-word match, unless a
suggestion marker is already present anywhere. -/
def linkStep (topic modified_content : Str) (lt : Str × Str) : Str :=
  let link_text := lt.1
  let link_topic := lt.2
  if containsSub (pyLower link_text) (pyLower topic) then modified_content
  else
    match reSearchWordCI link_text modified_content with
    | none => modified_content
    | some start =>
      if !containsSub markerStr modified_content then
        modified_content.take start
          ++ (modified_content.drop start).take link_text.length
          ++ S " [INTERNAL LINK SUGGESTION: " ++ link_text ++ S " | " ++ link_topic ++ S "]"
          ++ modified_content.drop (start + link_text.length)
      else modified_content

/-- `SeoAgent._add_internal_linking_suggestions` (src/agents/seo_agent.py). -/
def add_internal_linking_suggestions (content topic : Str) : Str :=
  related_topics.foldl (linkStep topic) content

/-- `re.finditer(r"(#+)\s+(.*?)$", content, re.MULTILINE)`: each match is a
run of `#`, a nonempty whitespace run (greedily matched, so it may cross
newlines), then the rest of the line; scanning resumes at the end of the
match, and a failed attempt advances one character. -/
def findHeads : Str → List (Str × Str)
  | [] => []
  | c :: rest =>
    if c = '#' then
      let hashes := c :: rest.takeWhile (· = '#')
      let afterH := rest.dropWhile (· = '#')
      let ws := afterH.takeWhile (isSpaceChar ·)
      if ws = [] then findHeads rest
      else
        let afterWs := afterH.dropWhile (isSpaceChar ·)
        let text := afterWs.takeWhile (· ≠ '\n')
        (hashes, text) :: findHeads (afterWs.drop text.length)
    else findHeads rest
termination_by s => s.length
decreasing_by
  · simp only [List.length_cons]; omega
  · simp only [List.length_cons, List.length_drop]
    have h1 : (List.dropWhile (· = '#') rest).length ≤ rest.length :=
      (List.dropWhile_suffix _).length_le
    have h2 : (List.dropWhile (isSpaceChar ·) (List.dropWhile (· = '#') rest)).length ≤
        (List.dropWhile (· = '#') rest).length :=
      (List.dropWhile_suffix _).length_le
    omega
  · simp only [List.length_cons]; omega

/-- Python `str.capitalize()`: first character upper-cased, the rest
lower-cased. -/
def pyCapitalize : Str → Str
  | [] => []
  | c :: rest => c.toUpper :: pyLower rest

/-- `SeoAgent._optimize_headings` (src/agents/seo_agent.py). -/
def optimize_headings (content topic keywords : Str) : Str :=
  let keyword_list0 := if keywords ≠ [] then (pySplit (S ",") keywords).map pyStrip else []
  let keyword_list := if keyword_list0 = [] && topic ≠ [] then [topic] else keyword_list0
  if keyword_list = [] then content
  else
    (findHeads content).foldl
      (fun modified_content hm =>
        let heading_markers := hm.1
        let heading_text := hm.2
        let original_heading := heading_markers ++ S " " ++ heading_text
        let keyword_present :=
          keyword_list.any fun kw => containsSub (pyLower kw) (pyLower heading_text)
        if !keyword_present
            && (heading_markers = S "#" || heading_markers = S "##" || heading_markers = S "###")
            && decide (3 < heading_text.length) then
          let most_relevant :=
            ((keyword_list.find? fun kw => containsSub (pyLower kw) (pyLower heading_text)).getD
              (keyword_list.headD []))
          if heading_text.length < 50 then
            pyReplace modified_content original_heading
              (original_heading ++ S ": " ++ pyCapitalize most_relevant)
          else modified_content
        else modified_content)
      content

/-- `SeoAgent.optimize_content` (src/agents/seo_agent.py): analysis, the
score-gated minimal path (link suggestions then heading optimization), else
the full-rewrite completion call; any exception yields the original content. -/
def optimize_content (env : Env) (content topic keywords : Str) : Str :=
  let seo_analysis := analyze_seo env content topic keywords
  if seo_analysis.overall_score.getD 0 > 85 then
    optimize_headings (add_internal_linking_suggestions content topic) topic keywords
  else
    match env.rewriteC topic keywords content with
    | .ok optimized_content => optimized_content
    | .error _ => content

/-- A bullet list `"\n".join(f"- {p}" for p in points)`. -/
def bulletList (points : List Str) : Str :=
  (S "\n").intercalate (points.map fun p => S "- " ++ p)

/-- `ContentAgent.generate_content` (src/agents/content_agent.py). Sections
are drafted in outline order: an `introduction` section by the introduction
chain; a `conclusion` section by the conclusion chain over the other sections'
key points (a section without a `heading` key makes `s.get("heading").lower()`
raise); any other section by one completion per subheading plus one for the
body, whose target word count is the remaining budget, floored at 50. -/
def generate_content (env : Env) (topic : Str) (outline : OutlineO)
    (research_data : ResearchData) : Except String Str := do
  let research_information := research_data.synthesized_research
  let blog_title := outline.title.getD (topic ++ S ": A Comprehensive Guide")
  let sections ← (outline.sections.getD []).foldlM
    (fun (acc : List MDSection) section_outline => do
      let heading := section_outline.heading.getD []
      let key_points := section_outline.key_points.getD []
      let target_word_count := section_outline.target_word_count.getD 300
      if pyLower heading = S "introduction" then
        let content ← env.introC blog_title topic target_word_count research_information
        pure (acc ++ [⟨heading, content, []⟩])
      else if pyLower heading = S "conclusion" then
        let all_key_points ← (outline.sections.getD []).foldlM
          (fun (kp : List Str) s2 => do
            match s2.heading with
            | none => Except.error "AttributeError: NoneType has no attribute lower"
            | some h2 =>
              if pyLower h2 ≠ S "introduction" && pyLower h2 ≠ S "conclusion" then
                pure (kp ++ s2.key_points.getD [])
              else pure kp)
          []
        let content ← env.conclC blog_title topic target_word_count (bulletList all_key_points)
        pure (acc ++ [⟨heading, content, []⟩])
      else
        let subs := section_outline.subheadings.getD []
        let processed_subheadings ← subs.foldlM
          (fun (ps : List MDSub) subheading => do
            let subheading_title := subheading.title.getD []
            let subheading_key_points := subheading.key_points.getD []
            let subheading_target_word_count := subheading.target_word_count.getD 200
            let subheading_content ← env.sectionC topic subheading_title []
              (bulletList subheading_key_points) subheading_target_word_count
              research_information
            pure (ps ++ [⟨subheading_title, subheading_content⟩]))
          []
        let subheadings_info := (S "\n").intercalate (subs.map fun sh => sh.title.getD [])
        let body_twc :=
          max 50 (target_word_count - (subs.map fun sh => sh.target_word_count.getD 200).sum)
        let section_content ← env.sectionC topic heading subheadings_info
          (bulletList key_points) body_twc research_information
        pure (acc ++ [⟨heading, section_content, processed_subheadings⟩]))
    []
  pure (create_markdown_blog blog_title sections)

/-- `generate_hr_tech_blog` (src/main.py): a fixed sample blog post; the
`keywords` argument is unused, as in the source.  The source writes one
string literal; it is transcribed here as three concatenated literals (split
at two heading boundaries) with identical content. -/
def generate_hr_tech_blog (keywords : Str) : Str := S
"# The Future of HR Technology: Trends Shaping the Workplace in 2025

" ++ S
"## Introduction to HR Technology in 2025

The human resources landscape has undergone a dramatic transformation in recent years, driven by technological advancements that have changed how organizations manage their workforce. In 2025, HR technology continues to evolve rapidly, with innovations that focus on enhancing employee experience, optimizing workforce management, and enabling data-driven decision-making.

## Artificial Intelligence and Machine Learning in HR

Artificial Intelligence (AI) and Machine Learning (ML) have become integral components of modern HR systems. These technologies are revolutionizing various aspects of human resources management, from recruitment to employee development.

### Recruitment and Talent Acquisition

AI-powered recruitment tools have significantly improved the hiring process by:

- **Automating candidate screening**: Advanced algorithms can analyze thousands of resumes in minutes, identifying the most qualified candidates based on skills, experience, and cultural fit.
- **Reducing bias in hiring**: AI systems designed with bias-mitigation algorithms help ensure fair evaluation of all candidates, promoting diversity and inclusion.
- **Predictive analytics for candidate success**: ML models can predict which candidates are likely to succeed in specific roles, based on historical performance data and various candidate attributes.

### Employee Development and Training

AI is also transforming how organizations approach employee development:

- **Personalized learning paths**: AI analyzes each employee's skills, performance, and career goals to create customized learning experiences.
- **Skills gap analysis**: Machine learning algorithms can identify organizational skills gaps and recommend targeted training programs.
- **Performance prediction**: Advanced analytics can forecast employee performance and identify those who might need additional support or are ready for new challenges.

## Employee Experience and Engagement Platforms

The focus on employee experience has led to the development of comprehensive platforms designed to enhance engagement and satisfaction throughout the employee lifecycle.

### Integrated Experience Platforms

Modern HR tech stacks now include unified platforms that:

- Connect various HR functions in a seamless interface
- Provide mobile-first experiences that meet employees where they are
- Offer consumer-grade user experiences that employees have come to expect

### Real-time Feedback and Recognition Systems

Continuous feedback has replaced annual reviews in many organizations:

- Pulse surveys gather employee sentiment data frequently
- Peer recognition platforms foster appreciation and team building
- AI-powered sentiment analysis identifies potential issues before they escalate

## HR Analytics and People Data

Data-driven decision-making has become central to effective HR management in 2025.

### Workforce Analytics

Advanced analytics capabilities now enable HR leaders to:

- **Predict attrition risks**: ML models can identify employees who might be considering leaving, allowing for proactive retention efforts.
- **Optimize workforce planning**: Sophisticated forecasting tools help organizations anticipate future talent needs.
- **Measure productivity**: New metrics and tools provide insights into team and individual productivity, especially in hybrid work environments.

### Ethical Considerations in HR Data

As HR data collection becomes more sophisticated, ethical considerations have come to the forefront:

- **Data privacy compliance**: Organizations must navigate complex global regulations regarding employee data.
- **Transparent AI**: Companies are developing explainable AI systems that can justify their recommendations and decisions.
- **Employee data ownership**: Progressive organizations are giving employees more control over their personal data.

## Remote and Hybrid Work Technology

The pandemic-accelerated shift to remote and hybrid work has permanently changed workplace technology needs.

### Collaboration Tools

The latest generation of collaboration tools offers:

- Virtual reality meeting spaces for immersive team interactions
- Asynchronous collaboration features that respect different time zones and work schedules
- AI-facilitated meetings with real-time transcription, translation, and action item tracking

### Performance Monitoring in Distributed Teams

Organizations have developed more sophisticated approaches to managing remote performance:

- **Outcome-based metrics**: Focus has shifted from activity monitoring to results measurement
- **Digital wellbeing tools**: Technology that helps prevent burnout by encouraging healthy work habits
- **Team cohesion analytics**: Data that helps leaders identify teams that may need additional support

## Blockchain for HR

Blockchain technology is finding practical applications in human resources management.

### Credential Verification

Blockchain provides a secure and efficient way to:

- Verify educational credentials and certifications
- Validate employment history
- Create portable, employee-owned professional records

### Smart Contracts for Employment

Forward-thinking organizations are exploring:

- Blockchain-based employment contracts that automatically execute agreed-upon terms
- Transparent compensation systems with built-in compliance
- Secure, immutable records of employee agreements and changes

" ++ S
"## Conclusion: The Human Element in HR Technology

While technology continues to transform HR practices, the most successful organizations remember that the ultimate purpose of these tools is to enhance the human experience at work. The best HR technology implementations in 2025 combine cutting-edge capabilities with a deep understanding of human needs, creating workplaces where people and technology bring out the best in each other.

As we look to the future, HR technology will continue to evolve, but its core purpose remains unchanged: to create better working environments where people can thrive and organizations can succeed.
"

/-- `generate_general_hr_blog` (src/main.py): the f-string template with its
sixteen `{topic}` insertions; the `keywords` argument is unused, as in the
source. -/
def generate_general_hr_blog (topic keywords : Str) : Str :=
  S "# " ++ topic ++ S ": Best Practices for Modern Organizations

## Introduction to " ++ topic ++ S "

In today's rapidly evolving workplace, " ++ topic ++ S " has become a critical focus area for HR professionals and business leaders alike. Organizations that excel in this domain can gain significant competitive advantages through improved talent acquisition, retention, and overall workforce productivity.

## Why " ++ topic ++ S " Matters in 2025

The business landscape continues to transform at an unprecedented pace, making effective " ++ topic ++ S " more important than ever before. Companies that implement strategic approaches to this area are seeing measurable benefits in:

- Employee engagement and satisfaction
- Organizational agility and adaptability
- Talent attraction and retention
- Overall business performance

## Key Strategies for Success

### Data-Driven Approaches

Modern HR functions are increasingly leveraging data and analytics to inform their " ++ topic ++ S " strategies:

- Workforce analytics provide insights into patterns and trends
- Predictive models help anticipate future challenges
- Benchmarking against industry standards ensures competitiveness

### Technology Integration

Technology plays a pivotal role in successful " ++ topic ++ S " initiatives:

- Specialized software platforms streamline processes
- AI and machine learning enhance decision-making
- Mobile solutions provide accessibility and convenience

### Building a Supportive Culture

The organizational culture significantly impacts the effectiveness of " ++ topic ++ S " programs:

- Leadership commitment and modeling
- Clear communication of expectations and benefits
- Recognition and rewards for desired behaviors
- Continuous feedback and improvement mechanisms

## Implementation Challenges and Solutions

### Common Obstacles

Organizations often face challenges when implementing " ++ topic ++ S " initiatives:

- Resistance to change from employees and managers
- Resource constraints and competing priorities
- Lack of specialized expertise or capabilities
- Inconsistent application across the organization

### Effective Solutions

Successful organizations overcome these challenges through:

- Comprehensive change management approaches
- Strategic prioritization and phased implementation
- Building internal capabilities and external partnerships
- Consistent governance and accountability frameworks

## Measuring Success: Key Metrics and KPIs

To ensure " ++ topic ++ S " initiatives deliver value, organizations should establish clear metrics:

- Input metrics: resources allocated, activities completed
- Output metrics: immediate results and deliverables
- Outcome metrics: business impact and return on investment
- Leading indicators: early signs of success or challenges

## Future Trends in " ++ topic ++ S "

Looking ahead, several emerging trends will shape the future of " ++ topic ++ S ":

- Increasing personalization and employee-centricity
- Greater integration with business strategy and operations
- Enhanced use of advanced technologies and analytics
- Focus on holistic employee wellbeing and experience

## Conclusion: Building Sustainable " ++ topic ++ S " Capabilities

As organizations navigate the complexities of the modern workplace, developing sustainable capabilities in " ++ topic ++ S " will be essential for long-term success. By adopting a strategic approach, leveraging technology effectively, and creating supportive cultural environments, HR leaders can ensure their " ++ topic ++ S " initiatives create lasting value for employees and the organization.

The most successful organizations will be those that view " ++ topic ++ S " not as a one-time project or isolated function, but as an integral part of how they operate and create value in a rapidly changing world.
"

/-- The document-producing core of the `/generate` route (`generate_blog`,
src/main.py): strip the form fields, default an empty topic to
\"HR Technology Trends\", and return one of the two hardcoded sample blogs
according to a keyword test on the topic.  The agents held by `env` are never
consulted. -/
def generate_blog (env : Env) (form_topic form_keywords : Str) : Str :=
  let topic0 := pyStrip form_topic
  let keywords := pyStrip form_keywords
  let topic := if topic0 = [] then S "HR Technology Trends" else topic0
  if containsSub (S "technology") (pyLower topic) || containsSub (S "tech") (pyLower topic)
      || containsSub (S "digital") (pyLower topic) then
    generate_hr_tech_blog keywords
  else
    generate_general_hr_blog topic keywords

/-- Modelled from the spec: the Pipeline Orchestrator of spec section 2
(\"sequences 4 to 5 to 6 to 7 to 8, threading the evolving document state
between stages\") is not present as code in src/ — the `/generate` route does
not call the stages — so its sequencing is modelled from the spec's words,
composing the source-embedded stage functions: Research (`research_topic`),
Planning (`create_outline`), Drafting (`generate_content`), Optimization
(`optimize_content`), Review (`review_content`). -/
def spec_pipeline (env : Env) (topic keywords : Str) (fuel : Nat) :
    Option (Except String Str) :=
  match research_topic env topic keywords fuel with
  | none => none
  | some (.error e) => some (.error e)
  | some (.ok research_data) =>
    some (do
      let outline ← create_outline env topic research_data keywords
      let draft ← generate_content env topic outline research_data
      let optimized := optimize_content env draft topic keywords
      pure (review_content env.reviewPass1 env.reviewPass2 optimized))

/-- The spec's reconstruction of a chunk list: the first chunk, then every
later chunk with its engineered `overlap`-character overlap removed,
concatenated. -/
def joinChunksMinusOverlap (overlap : Nat) : List Str → Str
  | [] => []
  | c :: rest => c ++ (rest.map (List.drop overlap)).flatten

/-- A deterministic stub environment: the network is down (every fetch
fails), every completion call returns `"X"`, every JSON parse fails, and the
random draws are 0. -/
def stubEnvX : Env :=
  { fetchUrl := fun _ => .error "no network",
    extractText := fun _ => .ok none,
    httpGet := fun _ => .error "no network",
    parseHtml := fun _ => .ok [],
    retryR := fun _ => 0,
    trendC := fun _ => .ok (S "X"),
    synthC := fun _ _ _ => .ok (S "X"),
    outlineC := fun _ _ _ => .ok (S "X"),
    outlineParse := fun _ => none,
    introC := fun _ _ _ _ => .ok (S "X"),
    conclC := fun _ _ _ _ => .ok (S "X"),
    sectionC := fun _ _ _ _ _ _ => .ok (S "X"),
    analysisC := fun _ _ _ => .ok (S "X"),
    analysisParse := fun _ => none,
    rewriteC := fun _ _ _ => .ok (S "X"),
    reviewPass1 := fun _ => .ok (S "X"),
    reviewPass2 := fun _ => .ok (S "X"),
    currentYear := S "2025",
    timestampS := S "2025-01-01 00:00:00",
    rand1 := 0,
    rand2 := 0 }

/-- `stubEnvX` with a research-synthesis completion that always raises. -/
def envBoom : Env :=
  { stubEnvX with synthC := fun _ _ _ => .error "completion down" }

/-- An SEO-analysis value whose only populated key is `overall_score`, 90. -/
def analysis90 : SeoAnalysisJ :=
  { keyword_analysis := none, structure_analysis := none,
    content_quality := none, overall_score := some 90,
    priority_improvements := none }

/-- `stubEnvX` with an SEO-analysis parse that reports `overall_score` 90. -/
def envScore90 : Env :=
  { stubEnvX with analysisParse := fun _ => some analysis90 }

/-! ## Helper lemmas -/

set_option maxRecDepth 100000

lemma isPrefixOf_append_of {l a : Str} (b : Str) (h : l.isPrefixOf a = true) :
    l.isPrefixOf (a ++ b) = true := by
  rw [List.isPrefixOf_iff_prefix] at h ⊢
  exact h.trans (a.prefix_append b)

lemma containsSub_nil_pat (b : Str) : containsSub [] b = true := by
  induction b with
  | nil => rfl
  | cons c rest ih => simp [containsSub]

lemma containsSub_append_left (sub a b : Str) (h : containsSub sub a = true) :
    containsSub sub (a ++ b) = true := by
  induction a with
  | nil =>
    cases sub with
    | nil => simpa using containsSub_nil_pat b
    | cons x xs => simp [containsSub] at h
  | cons c rest ih =>
    simp only [containsSub, Bool.or_eq_true] at h
    rcases h with h | h
    · simp only [List.cons_append, containsSub, Bool.or_eq_true]
      exact Or.inl (isPrefixOf_append_of b h)
    · simp only [List.cons_append, containsSub, Bool.or_eq_true]
      exact Or.inr (ih h)

lemma containsSub_append_right (sub a b : Str) (h : containsSub sub b = true) :
    containsSub sub (a ++ b) = true := by
  induction a with
  | nil => simpa using h
  | cons c rest ih =>
    simp only [List.cons_append, containsSub, Bool.or_eq_true]
    exact Or.inr ih

/-! ## C9: keyword density never divides by zero -/

/-- C9: `keywordDensity(text, [])`, `keywordDensity("", keywords)` and any
text with zero words all yield 0.0 — the division by the word count is always
guarded. -/
theorem C9_density_zero_guards (text : Str) (keywords : List Str) :
    (keywords = [] → calculate_keyword_density text keywords = 0) ∧
    (text = [] → calculate_keyword_density text keywords = 0) ∧
    (count_words text = 0 → calculate_keyword_density text keywords = 0) := by
  refine ⟨fun h => ?_, fun h => ?_, fun h => ?_⟩
  · simp [calculate_keyword_density, h]
  · simp [calculate_keyword_density, h]
  · by_cases hk : keywords = []
    · simp [calculate_keyword_density, hk]
    · by_cases ht : text = []
      · simp [calculate_keyword_density, ht]
      · simp [calculate_keyword_density, hk, ht, h]

/-- Witness for C9 at concrete inputs: `"!!!"` has zero words, and both
degenerate-argument cases return 0. -/
theorem C9_witness :
    calculate_keyword_density (S "!!!") [S "x"] = 0 ∧
    calculate_keyword_density (S "") [S "x"] = 0 ∧
    calculate_keyword_density (S "abc") [] = 0 :=
  ⟨(C9_density_zero_guards (S "!!!") [S "x"]).2.2 (by decide),
   (C9_density_zero_guards (S "") [S "x"]).2.1 rfl,
   (C9_density_zero_guards (S "abc") []).1 rfl⟩

/-! ## C2: the review stage's shrink / exception fallbacks -/

/-- C2: if either completion pass raises, or the two passes' result has a
word count below 90 percent of the original's, `review_content` returns
`fix_basic_issues` applied to the original content. -/
theorem C2_review_fallbacks (pass1 pass2 : Str → Except String Str) (content : Str) :
    (∀ e, pass1 content = .error e →
        review_content pass1 pass2 content = fix_basic_issues content) ∧
    (∀ r e, pass1 content = .ok r → pass2 r = .error e →
        review_content pass1 pass2 content = fix_basic_issues content) ∧
    (∀ r f, pass1 content = .ok r → pass2 r = .ok f →
        10 * count_words f < 9 * count_words content →
        review_content pass1 pass2 content = fix_basic_issues content) := by
  refine ⟨fun e h => ?_, fun r e h1 h2 => ?_, fun r f h1 h2 h3 => ?_⟩
  · simp [review_content, h]
  · simp [review_content, h1, h2]
  · simp [review_content, h1, h2, h3]

/-- Witness for C2: a second pass that shrinks ten words to one triggers the
fallback. -/
theorem C2_witness :
    review_content (fun c => .ok c) (fun _ => .ok (S "tiny"))
        (S "one two three four five six seven eight nine ten") =
      fix_basic_issues (S "one two three four five six seven eight nine ten") :=
  (C2_review_fallbacks _ _ _).2.2 _ (S "tiny") rfl rfl (by decide)

/-! ## C3: the planning stage's fixed fallback outline -/

/-- C3: when the outline response parses as JSON neither raw nor after fence
stripping, `create_outline` returns the fixed fallback outline without
raising; that outline has 6 sections (hence at least 5) and ends in a
`Conclusion` section. -/
theorem C3_outline_fallback (env : Env) (topic : Str) (rd : ResearchData)
    (keywords0 resp : Str)
    (hc : env.outlineC topic rd.synthesized_research (outlineKeywords rd keywords0) = .ok resp)
    (h1 : env.outlineParse resp = none)
    (h2 : env.outlineParse (cleanJsonStr resp) = none) :
    create_outline env topic rd keywords0 =
        .ok (fallback_outline topic (outlineKeywords rd keywords0)) ∧
    ((fallback_outline topic (outlineKeywords rd keywords0)).sections.getD []).length = 6 ∧
    5 ≤ ((fallback_outline topic (outlineKeywords rd keywords0)).sections.getD []).length ∧
    (((fallback_outline topic (outlineKeywords rd keywords0)).sections.getD []).getLast?.bind
        (·.heading)) = some (S "Conclusion") := by
  have hlen : ((fallback_outline topic (outlineKeywords rd keywords0)).sections.getD
      []).length = 6 := rfl
  refine ⟨?_, hlen, by omega, rfl⟩
  simp [create_outline, hc, h1, h2]

/-- Witness for C3: a stub service answering `"X"` with a parser that always
fails yields the fallback outline. -/
theorem C3_witness :
    create_outline stubEnvX (S "HR") ⟨S "HR", [], [], [], []⟩ [] =
      .ok (fallback_outline (S "HR") (outlineKeywords ⟨S "HR", [], [], [], []⟩ [])) :=
  (C3_outline_fallback stubEnvX (S "HR") ⟨S "HR", [], [], [], []⟩ [] (S "X")
    rfl rfl rfl).1

/-! ## C6: the retry wrapper's delay bookkeeping -/

/-- The retry loop's one-step behaviour on a successful attempt. -/
lemma retryGo_ok {E α : Type} {op : Nat → Except E α} {base : ℚ} {jitter : Bool}
    {r : Nat → ℚ} {rem k : Nat} {d : ℚ} {a : α} (h : op k = .ok a) :
    retryGo op base jitter r rem k d = (.ok a, []) := by
  rw [retryGo, h]

/-- The retry loop's behaviour when the attempt fails with retries exhausted. -/
lemma retryGo_err_zero {E α : Type} {op : Nat → Except E α} {base : ℚ}
    {jitter : Bool} {r : Nat → ℚ} {k : Nat} {d : ℚ} {e : E}
    (h : op k = .error e) :
    retryGo op base jitter r 0 k d = (.error e, []) := by
  rw [retryGo, h]

/-- The retry loop's one-step behaviour when the attempt fails with retries
left: recompute the delay, sleep it, recurse. -/
lemma retryGo_err_succ {E α : Type} {op : Nat → Except E α} {base : ℚ}
    {jitter : Bool} {r : Nat → ℚ} {n k : Nat} {d : ℚ} {e : E}
    (h : op k = .error e) :
    retryGo op base jitter r (n + 1) k d =
      ((retryGo op base jitter r n (k + 1)
          (if jitter then d * base * (1 + r k) else d * base)).1,
        (if jitter then d * base * (1 + r k) else d * base) ::
          (retryGo op base jitter r n (k + 1)
            (if jitter then d * base * (1 + r k) else d * base)).2) := by
  rw [retryGo, h]

/-- Under an always-failing operation, the retry loop returns the last error
and sleeps once per retry. -/
lemma retryGo_allfail {E α : Type} (op : Nat → Except E α) (e : Nat → E)
    (base : ℚ) (jitter : Bool) (r : Nat → ℚ) (hop : ∀ k, op k = .error (e k)) :
    ∀ rem k d, (retryGo op base jitter r rem k d).1 = .error (e (k + rem)) ∧
      (retryGo op base jitter r rem k d).2.length = rem := by
  intro rem
  induction rem with
  | zero => intro k d; simp [retryGo_err_zero (hop k)]
  | succ n ih =>
    intro k d
    have h := ih (k + 1) (if jitter then d * base * (1 + r k) else d * base)
    rw [retryGo_err_succ (hop k)]
    constructor
    · rw [h.1]
      have harith : k + 1 + n = k + (n + 1) := by omega
      rw [harith]
    · simp [h.2]

/-- Without jitter, the i-th sleep of an always-failing run is
`d * base ^ (i+1)` — the delay is recomputed before it is waited. -/
lemma retryGo_sleeps_nojitter {E α : Type} (op : Nat → Except E α) (e : Nat → E)
    (base : ℚ) (r : Nat → ℚ) (hop : ∀ k, op k = .error (e k)) :
    ∀ rem k d i, i < rem →
      (retryGo op base false r rem k d).2.getD i 0 = d * base ^ (i + 1) := by
  intro rem
  induction rem with
  | zero => intro k d i hi; omega
  | succ n ih =>
    intro k d i hi
    rw [retryGo_err_succ (hop k)]
    simp only [if_neg Bool.false_ne_true]
    cases i with
    | zero => simp [pow_one]
    | succ j =>
      have h := ih (k + 1) (d * base) j (by omega)
      simp only [List.getD_cons_succ]
      rw [h]; ring

/-- C6 (amended): on an operation that fails on every attempt,
`retry_with_exponential_backoff` makes exactly `maxRetries + 1` attempts and
re-raises the failure of the last one; it sleeps once per retry, and each
sleep is the *recomputed* delay — without jitter the i-th sleep is
`initialDelay * base ^ (i+1)`, not the pre-recomputation delay
`initialDelay * base ^ i` the claim describes. -/
theorem C6_retry_recomputes_then_waits {E α : Type} (op : Nat → Except E α)
    (e : Nat → E) (max_retries : Nat) (init base : ℚ) (jitter : Bool)
    (r : Nat → ℚ) (hop : ∀ k, op k = .error (e k)) :
    (retry_with_exponential_backoff op max_retries init base jitter r).1 =
        .error (e max_retries) ∧
    (retry_with_exponential_backoff op max_retries init base jitter r).2.length =
        max_retries ∧
    (jitter = false → ∀ i, i < max_retries →
      (retry_with_exponential_backoff op max_retries init base jitter r).2.getD i 0 =
        init * base ^ (i + 1)) := by
  have h := retryGo_allfail op e base jitter r hop max_retries 0 init
  refine ⟨by simpa [retry_with_exponential_backoff] using h.1,
          by simpa [retry_with_exponential_backoff] using h.2, ?_⟩
  rintro rfl i hi
  exact retryGo_sleeps_nojitter op e base r hop max_retries 0 init i hi

/-- Counterexample for C6 as stated: with `maxRetries = 1`,
`initialDelay = 1`, `base = 2` and no jitter, the single wait performed is 2
seconds — the recomputed delay — whereas waiting "the current delay, then
recomputing" would wait 1 second. -/
theorem C6_counterexample :
    (retry_with_exponential_backoff
        (fun _ => (Except.error "boom" : Except String Unit)) 1 1 2 false
        (fun _ => 0)).2 = [2] ∧
    ((2 : ℚ) ≠ (1 : ℚ)) := by
  constructor
  · rw [retry_with_exponential_backoff,
      @retryGo_err_succ String Unit (fun _ => Except.error "boom") 2 false
        (fun _ => 0) 0 0 1 "boom" rfl,
      @retryGo_err_zero String Unit (fun _ => Except.error "boom") 2 false
        (fun _ => 0) 1 (if false = true then 1 * 2 * (1 + 0) else 1 * 2) "boom" rfl]
    norm_num
  · norm_num

/-- Witness for C6 (amended) at concrete parameters. -/
theorem C6_witness :
    (retry_with_exponential_backoff
        (fun _ => (Except.error "boom" : Except String Unit)) 2 1 3 false
        (fun _ => 0)).1 = .error "boom" ∧
    (retry_with_exponential_backoff
        (fun _ => (Except.error "boom" : Except String Unit)) 2 1 3 false
        (fun _ => 0)).2.getD 0 0 = 3 := by
  have h := C6_retry_recomputes_then_waits
    (fun _ => (Except.error "boom" : Except String Unit)) (fun _ => "boom")
    2 1 3 false (fun _ => 0) (fun _ => rfl)
  refine ⟨h.1, ?_⟩
  have := h.2.2 rfl 0 (by norm_num)
  simpa using this

/-! ## C10: `search_web` never raises, so its retry wrapper is inert -/

/-- C10: the inner body of `search_web` returns `[]` on a failed request, a
non-200 status, or a failed HTML parse, and never raises; consequently the
retry wrapper returns the inner result on the first attempt with no back-off
sleeps — its retry/re-raise path is unreachable at this call site. -/
theorem C10_search_web_total (env : Env) (query : Str) (num_results : Int) :
    search_web env query num_results =
        (.ok (search_web_inner env query num_results), []) ∧
    (∀ e, env.httpGet (searchUrl query) = .error e →
        search_web_inner env query num_results = []) ∧
    (∀ resp, env.httpGet (searchUrl query) = .ok resp → resp.status_code ≠ 200 →
        search_web_inner env query num_results = []) ∧
    (∀ resp e, env.httpGet (searchUrl query) = .ok resp →
        env.parseHtml resp.text = .error e →
        search_web_inner env query num_results = []) := by
  refine ⟨rfl, fun e h => ?_, fun resp h hs => ?_, fun resp e h hp => ?_⟩
  · simp [search_web_inner, h]
  · simp [search_web_inner, h, hs]
  · simp [search_web_inner, h, hp]

/-- Witness for C10: with the network down, the wrapped `search_web` returns
`(ok [], no sleeps)`. -/
theorem C10_witness :
    search_web stubEnvX (S "hr") 5 = (.ok [], []) ∧
    search_web_inner stubEnvX (S "hr") 5 = [] := by
  have h := C10_search_web_total stubEnvX (S "hr") 5
  have h2 : search_web_inner stubEnvX (S "hr") 5 = [] := h.2.1 "no network" rfl
  exact ⟨by rw [h.1, h2], h2⟩

/-! ## C4: the chunking loop can fail to make forward progress -/

/-- From `start = 1` on the text `"ab cdef"` with `max_chars = 4` and
`overlap = 2`, each iteration recomputes `end = 3` and
`start = end - overlap = 1` again: the loop never finishes, whatever the
fuel. -/
lemma c4_loop_stuck : ∀ f, splitLoop (S "ab cdef") 4 2 f 1 = none := by
  intro f
  induction f with
  | zero => rfl
  | succ n ih =>
    have hlt : (1 : Int) < ((S "ab cdef").length : Int) := by decide
    have hnle : ¬ ((S "ab cdef").length : Int) ≤ 1 + ((4 : Nat) : Int) := by decide
    have harg : computeEnd (S "ab cdef") 1 4 - ((2 : Nat) : Int) = 1 := by decide
    rw [splitLoop, if_pos hlt, if_neg hnle, harg, ih]
    rfl

/-- C4 fails on the code: `split_text_into_chunks("ab cdef", max_tokens=1,
overlap=2)` never terminates — the space breakpoint at index 2 yields
`end = 3` and the overlap rewind puts `start` back to 1 forever, so the loop
makes no forward progress. -/
theorem C4_chunking_nonterminating :
    ∀ fuel, split_text_into_chunks (S "ab cdef") 1 2 fuel = none := by
  intro fuel
  cases fuel with
  | zero => rfl
  | succ n =>
    show splitLoop (S "ab cdef") (1 * 4) 2 (n + 1) 0 = none
    rw [one_mul]
    have hlt : (0 : Int) < ((S "ab cdef").length : Int) := by decide
    have hnle : ¬ ((S "ab cdef").length : Int) ≤ 0 + ((4 : Nat) : Int) := by decide
    have harg : computeEnd (S "ab cdef") 0 4 - ((2 : Nat) : Int) = 1 := by decide
    rw [splitLoop, if_pos hlt, if_neg hnle, harg, c4_loop_stuck n]
    rfl

/-! ## C8: what the chunk decomposition does and does not guarantee -/

lemma pyNorm_of_nonneg_le {n : Nat} {a : Int} (h0 : 0 ≤ a) (hle : a ≤ (n : Int)) :
    pyNorm n a = a.toNat := by
  unfold pyNorm
  rw [if_neg (by omega)]
  have h : a.toNat ≤ n := by omega
  exact min_eq_left h

lemma rfindDown_bounds {s sub : Str} {lo : Nat} :
    ∀ i0 i, rfindDown s sub lo i0 = some i → lo ≤ i ∧ i ≤ i0 := by
  intro i0
  induction i0 with
  | zero =>
    intro i h
    unfold rfindDown at h
    split at h
    · cases h; rename_i hcond; simp at hcond; omega
    · cases h
  | succ m ih =>
    intro i h
    unfold rfindDown at h
    split at h
    · cases h; rename_i hcond; simp at hcond; omega
    · have := ih i h; omega

lemma pyRfind_cases (s sub : Str) (a b : Int) :
    pyRfind s sub a b = -1 ∨ ∃ i : Nat, pyRfind s sub a b = (i : Int) ∧
      pyNorm s.length a ≤ i ∧ i + sub.length ≤ pyNorm s.length b := by
  unfold pyRfind
  by_cases h : sub.length ≤ pyNorm s.length b
  · rw [if_pos h]
    cases hr : rfindDown s sub (pyNorm s.length a) (pyNorm s.length b - sub.length) with
    | none => left; rfl
    | some i =>
      right
      have hb := rfindDown_bounds _ _ hr
      exact ⟨i, rfl, hb.1, by omega⟩
  · left; rw [if_neg h]

lemma computeEnd_bounds (text : Str) (s : Int) (mc : Nat) (h0 : 0 ≤ s)
    (hmc : 4 ≤ mc) (hlt : s + (mc : Int) < text.length) :
    s + 2 ≤ computeEnd text s mc ∧ computeEnd text s mc ≤ s + mc := by
  have hmc2 : 2 ≤ mc / 2 := by omega
  have hmc3 : 1 ≤ mc / 3 := by omega
  have hb : pyNorm text.length (s + (mc : Int)) = (s + (mc : Int)).toNat :=
    pyNorm_of_nonneg_le (by omega) (by omega)
  unfold computeEnd
  by_cases hc1 : pyRfind text (S "\n\n") s (s + (mc : Int)) > s + ((mc / 2 : Nat) : Int)
  · rcases pyRfind_cases text (S "\n\n") s (s + (mc : Int)) with hp | ⟨i, hip, _, hihi⟩
    · exfalso; rw [hp] at hc1; omega
    · rw [if_pos hc1, hip]
      rw [hip] at hc1
      rw [hb] at hihi
      have hsub : (S "\n\n").length = 2 := rfl
      rw [hsub] at hihi
      omega
  · rw [if_neg hc1]
    by_cases hc2 : pyRfind text (S ". ") s (s + (mc : Int)) > s + ((mc / 3 : Nat) : Int)
    · rcases pyRfind_cases text (S ". ") s (s + (mc : Int)) with hp | ⟨i, hip, _, hihi⟩
      · exfalso; rw [hp] at hc2; omega
      · rw [if_pos hc2, hip]
        rw [hip] at hc2
        rw [hb] at hihi
        have hsub : (S ". ").length = 2 := rfl
        rw [hsub] at hihi
        omega
    · rw [if_neg hc2]
      by_cases hc3 : pyRfind text (S " ") s (s + (mc : Int)) > s
      · rcases pyRfind_cases text (S " ") s (s + (mc : Int)) with hp | ⟨i, hip, _, hihi⟩
        · exfalso; rw [hp] at hc3; omega
        · rw [if_pos hc3, hip]
          rw [hip] at hc3
          rw [hb] at hihi
          have hsub : (S " ").length = 1 := rfl
          rw [hsub] at hihi
          omega
      · rw [if_neg hc3]
        omega

lemma pySlice_take_drop (text : Str) (s e : Nat) (hs : s ≤ text.length)
    (he : e ≤ text.length) :
    pySlice text (s : Int) (e : Int) = (text.take e).drop s := by
  unfold pySlice
  rw [pyNorm_of_nonneg_le (by omega) (by exact_mod_cast hs),
      pyNorm_of_nonneg_le (by omega) (by exact_mod_cast he)]
  simp

lemma segment_glue (text : Str) (s e : Nat) (hse : s ≤ e) (he : e ≤ text.length) :
    (text.take e).drop s ++ text.drop e = text.drop s := by
  conv_rhs => rw [← List.take_append_drop e text]
  rw [List.drop_append_of_le_length]
  rw [List.length_take]
  omega

/-- Invariant of the chunking loop for `overlap ≤ 1`: started anywhere inside
the text, a finished run yields nonempty chunks, each at most `max_chars`
long, whose overlap-stripped concatenation is exactly the unread suffix. -/
lemma splitLoop_covering (text : Str) (mc ov : Nat) (hmc : 4 ≤ mc) (hov : ov ≤ 1) :
    ∀ fuel (s : Nat) cs, s < text.length →
      splitLoop text mc ov fuel (s : Int) = some cs →
      cs ≠ [] ∧ ov ≤ (cs.headD []).length ∧
      joinChunksMinusOverlap ov cs = text.drop s ∧
      ∀ c ∈ cs, c.length ≤ mc := by
  intro fuel
  induction fuel with
  | zero =>
    intro s cs hs h
    exact absurd h (by simp [splitLoop])
  | succ n ih =>
    intro s cs hs h
    have hslt : (s : Int) < (text.length : Int) := by exact_mod_cast hs
    rw [splitLoop, if_pos hslt] at h
    by_cases hterm : (text.length : Int) ≤ (s : Int) + (mc : Nat)
    · rw [if_pos hterm] at h
      have hcs : cs = [pySlice text (s : Int) (text.length : Int)] :=
        (Option.some.inj h).symm
      have hsl : pySlice text (s : Int) (text.length : Int) = text.drop s := by
        rw [pySlice_take_drop text s text.length (le_of_lt hs) (le_refl _),
          List.take_length]
      subst hcs
      rw [hsl]
      refine ⟨by simp, ?_, ?_, ?_⟩
      · simp only [List.headD_cons, List.length_drop]; omega
      · simp [joinChunksMinusOverlap]
      · intro c hc
        simp only [List.mem_singleton] at hc
        subst hc
        simp only [List.length_drop]
        omega
    · rw [if_neg hterm] at h
      obtain ⟨hlo, hhi⟩ :=
        computeEnd_bounds text (s : Int) mc (by omega) hmc (by omega)
      set e := computeEnd text (s : Int) mc with hedef
      have he0 : 0 ≤ e := by omega
      have hee : ((e.toNat : Nat) : Int) = e := Int.toNat_of_nonneg he0
      have hse : s + 2 ≤ e.toNat := by omega
      have helen : e.toNat ≤ s + mc := by omega
      have heltlen : e.toNat < text.length := by omega
      have harg : e - (ov : Int) = ((e.toNat - ov : Nat) : Int) := by
        omega
      cases hrec : splitLoop text mc ov n (e - (ov : Int)) with
      | none => rw [hrec] at h; simp at h
      | some rest =>
        rw [hrec] at h
        simp only [Option.map_some'] at h
        have hcs : cs = pySlice text (s : Int) e :: rest := (Option.some.inj h).symm
        have hs' : e.toNat - ov < text.length := by omega
        have hrec' : splitLoop text mc ov n ((e.toNat - ov : Nat) : Int) = some rest := by
          rw [← harg]; exact hrec
        obtain ⟨hne, hhead, hjoin, hlenr⟩ := ih (e.toNat - ov) rest hs' hrec'
        have hslice : pySlice text (s : Int) e = (text.take e.toNat).drop s := by
          rw [← hee]
          exact pySlice_take_drop text s e.toNat (by omega) (le_of_lt heltlen)
        subst hcs
        have hchunklen : ((text.take e.toNat).drop s).length = e.toNat - s := by
          simp only [List.length_drop, List.length_take]
          omega
        refine ⟨by simp, ?_, ?_, ?_⟩
        · rw [hslice]
          simp only [List.headD_cons]
          omega
        · -- reconstruction
          obtain ⟨r0, rtail, hrest⟩ : ∃ r0 rtail, rest = r0 :: rtail := by
            cases rest with
            | nil => exact absurd rfl hne
            | cons a b => exact ⟨a, b, rfl⟩
          subst hrest
          simp only [List.headD_cons] at hhead
          simp only [joinChunksMinusOverlap, List.map_cons, List.flatten_cons] at hjoin ⊢
          have hdropapp : r0.drop ov ++ (rtail.map (List.drop ov)).flatten =
              (r0 ++ (rtail.map (List.drop ov)).flatten).drop ov :=
            (List.drop_append_of_le_length hhead).symm
          rw [hslice, hdropapp, hjoin, List.drop_drop]
          have hidx : e.toNat - ov + ov = e.toNat := by omega
          rw [hidx]
          exact segment_glue text s e.toNat (by omega) (le_of_lt heltlen)
        · intro c hc
          simp only [List.mem_cons] at hc
          rcases hc with hc | hc
          · subst hc
            rw [hslice, hchunklen]
            omega
          · exact hlenr c hc

/-- C8 (amended): for `overlap ≤ 1` (in particular `overlap = 0`), every
terminating run of `split_text_into_chunks` is a covering decomposition:
concatenating the chunks after stripping each later chunk's
`overlap`-character prefix reproduces the text, every chunk is at most
`maxTokens*4 + overlap` characters long, and a text within the limit returns
exactly `[text]`.  (For `overlap ≥ 2` the decomposition property fails on
terminating runs — see the counterexample.) -/
theorem C8_chunk_covering (text : Str) (max_tokens overlap fuel : Nat)
    (cs : List Str) (hmt : 0 < max_tokens) (hov : overlap ≤ 1)
    (h : split_text_into_chunks text max_tokens overlap fuel = some cs) :
    joinChunksMinusOverlap overlap cs = text ∧
    (∀ c ∈ cs, c.length ≤ max_tokens * 4 + overlap) ∧
    (text.length ≤ max_tokens * 4 → cs = [text]) := by
  unfold split_text_into_chunks at h
  by_cases hshort : text.length ≤ max_tokens * 4
  · rw [if_pos hshort] at h
    have hcs : cs = [text] := (Option.some.inj h).symm
    subst hcs
    refine ⟨by simp [joinChunksMinusOverlap], ?_, fun _ => rfl⟩
    intro c hc
    simp only [List.mem_singleton] at hc
    subst hc
    omega
  · rw [if_neg hshort] at h
    have h4 : 4 ≤ max_tokens * 4 := by omega
    have hlen0 : 0 < text.length := by omega
    obtain ⟨hne, hhd, hjoin, hlen⟩ :=
      splitLoop_covering text (max_tokens * 4) overlap h4 hov fuel 0 cs hlen0
        (by simpa using h)
    refine ⟨by simpa using hjoin, ?_, fun hcontra => absurd hcontra hshort⟩
    intro c hc
    have := hlen c hc
    omega

/-- Counterexample for C8 as stated: on `"a bcdefgh"` with `maxTokens = 2`
and `overlap = 3` the loop terminates (via a negative intermediate `start`
and Python's negative-slice semantics) with chunks `["a ", "", "defgh"]`, and
removing the engineered overlaps reproduces `"a gh"`, not the input. -/
theorem C8_counterexample :
    split_text_into_chunks (S "a bcdefgh") 2 3 10 = some [S "a ", [], S "defgh"] ∧
    joinChunksMinusOverlap 3 [S "a ", [], S "defgh"] ≠ S "a bcdefgh" := by
  constructor
  · decide
  · decide

/-- Witness for C8 (amended): a terminating run with `overlap = 1` whose
overlap-stripped concatenation reproduces the text. -/
theorem C8_witness :
    joinChunksMinusOverlap 1 [S "abcdefgh", S "h ", S " jklmnop", S "pq"] =
      S "abcdefgh jklmnopq" :=
  (C8_chunk_covering (S "abcdefgh jklmnopq") 2 1 20
    [S "abcdefgh", S "h ", S " jklmnop", S "pq"]
    (by norm_num) (by norm_num) (by decide)).1

/-! ## C5: what `find_trending_topic` swallows, and what it does not -/

/-- Counterexample for C5 as stated: when the research-synthesis completion
always raises, the exception raised while researching the *fallback* topic
inside the `except` handler propagates out of `find_trending_topic`. -/
theorem C5_counterexample :
    find_trending_topic envBoom 10 = some (.error "completion down") := by
  rfl

/-- C5 (amended): every exception in the trend-search / scraping /
topic-selection / research path is caught and degraded to researching a
random fallback topic; `find_trending_topic` returns successfully *provided*
researching a topic never raises — the handler's own `research_topic` call is
outside any try block, so its failure would propagate. -/
theorem C5_trending_degrades (env : Env) (fuel : Nat)
    (h : ∀ t, ∃ rd, research_topic env t [] fuel = some (.ok rd)) :
    ∃ t rd, find_trending_topic env fuel = some (.ok (t, rd)) := by
  obtain ⟨rd2, hrd2⟩ :=
    h (Config.FALLBACK_HR_TOPICS.getD (env.rand2 % Config.FALLBACK_HR_TOPICS.length) [])
  obtain ⟨rd1, hrd1⟩ :=
    h (Config.FALLBACK_HR_TOPICS.getD (env.rand1 % Config.FALLBACK_HR_TOPICS.length) [])
  unfold find_trending_topic
  cases hs : search_latest_hr_trends env with
  | error e =>
    refine ⟨Config.FALLBACK_HR_TOPICS.getD (env.rand2 % Config.FALLBACK_HR_TOPICS.length) [],
      rd2, ?_⟩
    simp only [hrd2]
    rfl
  | ok trend_results =>
    cases trend_results with
    | nil =>
      refine ⟨Config.FALLBACK_HR_TOPICS.getD (env.rand1 % Config.FALLBACK_HR_TOPICS.length) [],
        rd1, ?_⟩
      simp only [hrd1]
      rfl
    | cons r rs =>
      cases htc : env.trendC
          ((S "\n\n").intercalate
            ((scrape_multiple_sources env
                (((r :: rs).take (pyNorm (r :: rs).length 5)).map (·.link))).map
              fun p => S "Source: " ++ p.1 ++ S "\n" ++ p.2.take 3000)) with
      | error e =>
        refine ⟨Config.FALLBACK_HR_TOPICS.getD (env.rand2 % Config.FALLBACK_HR_TOPICS.length) [],
          rd2, ?_⟩
        simp only [htc, hrd2]
        rfl
      | ok resp =>
        obtain ⟨rd, hrd⟩ := h (pyStrip resp)
        refine ⟨pyStrip resp, rd, ?_⟩
        simp only [htc, hrd]
        rfl

/-- Witness for C5 (amended): with the stub environment every research call
succeeds, and `find_trending_topic` returns successfully. -/
theorem C5_witness :
    ∃ t rd, find_trending_topic stubEnvX 10 = some (.ok (t, rd)) :=
  C5_trending_degrades stubEnvX 10 fun t =>
    ⟨{ topic := t, keywords := [], synthesized_research := S "X\n\n",
       source_metadata := [], timestamp := stubEnvX.timestampS }, rfl⟩

/-! ## C7: the high-score path of the optimization stage -/

/-- Each `related_topics` iteration either leaves the document unchanged or,
when no suggestion marker is present yet, splices in exactly one suggestion
at the leftmost whole-word match. -/
lemma linkStep_cases (topic mc : Str) (lt : Str × Str) :
    linkStep topic mc lt = mc ∨
    (containsSub markerStr mc = false ∧ ∃ i,
      linkStep topic mc lt =
        mc.take i ++ (mc.drop i).take lt.1.length
          ++ S " [INTERNAL LINK SUGGESTION: " ++ lt.1 ++ S " | " ++ lt.2 ++ S "]"
          ++ mc.drop (i + lt.1.length)) := by
  unfold linkStep
  by_cases h1 : containsSub (pyLower lt.1) (pyLower topic) = true
  · left; rw [if_pos h1]
  · rw [if_neg h1]
    cases hm : reSearchWordCI lt.1 mc with
    | none => left; rfl
    | some start =>
      by_cases h2 : containsSub markerStr mc = true
      · left; simp [h2]
      · right
        refine ⟨by simpa using h2, start, ?_⟩
        simp [h2]

/-- A spliced-in suggestion makes the marker present. -/
lemma marker_in_spliced (mc : Str) (i : Nat) (lt : Str × Str) :
    containsSub markerStr
      (mc.take i ++ (mc.drop i).take lt.1.length
        ++ S " [INTERNAL LINK SUGGESTION: " ++ lt.1 ++ S " | " ++ lt.2 ++ S "]"
        ++ mc.drop (i + lt.1.length)) = true := by
  simp only [List.append_assoc]
  apply containsSub_append_right
  apply containsSub_append_right
  apply containsSub_append_left
  decide

lemma linkStep_of_marker (topic mc : Str) (lt : Str × Str)
    (h : containsSub markerStr mc = true) : linkStep topic mc lt = mc := by
  rcases linkStep_cases topic mc lt with h1 | ⟨h2, _⟩
  · exact h1
  · rw [h] at h2; cases h2

/-- Once a suggestion marker is present, the whole `related_topics` loop is a
no-op. -/
lemma foldl_linkStep_of_marker (topic : Str) :
    ∀ (table : List (Str × Str)) (mc : Str), containsSub markerStr mc = true →
      table.foldl (linkStep topic) mc = mc := by
  intro table
  induction table with
  | nil => intro mc _; rfl
  | cons lt rest ih =>
    intro mc h
    simp only [List.foldl_cons, linkStep_of_marker topic mc lt h]
    exact ih mc h

/-- The `related_topics` loop performs at most one splice in total. -/
lemma foldl_linkStep_cases (topic : Str) :
    ∀ (table : List (Str × Str)) (mc : Str),
      table.foldl (linkStep topic) mc = mc ∨
      ∃ lt ∈ table, ∃ i,
        table.foldl (linkStep topic) mc =
          mc.take i ++ (mc.drop i).take lt.1.length
            ++ S " [INTERNAL LINK SUGGESTION: " ++ lt.1 ++ S " | " ++ lt.2 ++ S "]"
            ++ mc.drop (i + lt.1.length) := by
  intro table
  induction table with
  | nil => intro mc; left; rfl
  | cons lt rest ih =>
    intro mc
    simp only [List.foldl_cons]
    rcases linkStep_cases topic mc lt with heq | ⟨hno, i, heq⟩
    · rw [heq]
      rcases ih mc with h | ⟨lt', hmem, j, h⟩
      · left; exact h
      · right; exact ⟨lt', List.mem_cons_of_mem _ hmem, j, h⟩
    · rw [heq, foldl_linkStep_of_marker topic rest _ (marker_in_spliced mc i lt)]
      right
      exact ⟨lt, List.mem_cons_self _ _, i, rfl⟩

/-- C7: when the analysis reports a score above 85, `optimize_content` skips
the full-rewrite completion and performs only the two deterministic local
edits; the link pass inserts nothing once a marker exists, and in total
splices in at most one suggestion. -/
theorem C7_optimize_minimal_edits (env : Env) (content topic keywords : Str)
    (h : 85 < (analyze_seo env content topic keywords).overall_score.getD 0) :
    optimize_content env content topic keywords =
      optimize_headings (add_internal_linking_suggestions content topic) topic keywords ∧
    (containsSub markerStr content = true →
      add_internal_linking_suggestions content topic = content) ∧
    (add_internal_linking_suggestions content topic = content ∨
      ∃ lt ∈ related_topics, ∃ i,
        add_internal_linking_suggestions content topic =
          content.take i ++ (content.drop i).take lt.1.length
            ++ S " [INTERNAL LINK SUGGESTION: " ++ lt.1 ++ S " | " ++ lt.2 ++ S "]"
            ++ content.drop (i + lt.1.length)) := by
  refine ⟨?_, fun hm => foldl_linkStep_of_marker topic related_topics content hm,
    foldl_linkStep_cases topic related_topics content⟩
  unfold optimize_content
  rw [if_pos h]

/-- Witness for C7: a parsed analysis reporting score 90 takes the
minimal-edit path. -/
theorem C7_witness :
    optimize_content envScore90 (S "Hello world") (S "Testing") [] =
      optimize_headings (add_internal_linking_suggestions (S "Hello world") (S "Testing"))
        (S "Testing") [] :=
  (C7_optimize_minimal_edits envScore90 (S "Hello world") (S "Testing") []
    (by decide)).1

/-! ## C1: what the `/generate` route actually produces -/

/-- Counterexample for C1 as stated: with the deterministic stub services,
running the five stages as the spec sequences them yields the document
`"X"`, while the route returns a hardcoded sample blog — the route does not
produce its document by running the stages. -/
theorem C1_counterexample :
    spec_pipeline stubEnvX (S "Remote Work Best Practices") [] 10 = some (.ok (S "X")) ∧
    generate_blog stubEnvX (S "Remote Work Best Practices") [] ≠ S "X" := by
  constructor
  · rfl
  · decide

/-- C1 (amended): for every topic and keyword input and any services, the
`/generate` route ignores the agent stages and returns one of the two
hardcoded sample documents, selected by whether the (defaulted) topic
mentions technology/tech/digital; the result is a markdown document that
begins with `# ` and contains an `## Introduction` and a `## Conclusion`
heading. -/
theorem C1_route_returns_canned_sample (env : Env) (form_topic form_keywords : Str) :
    (S "# ").isPrefixOf (generate_blog env form_topic form_keywords) = true ∧
    containsSub (S "## Introduction") (generate_blog env form_topic form_keywords) = true ∧
    containsSub (S "## Conclusion") (generate_blog env form_topic form_keywords) = true ∧
    (generate_blog env form_topic form_keywords =
        generate_hr_tech_blog (pyStrip form_keywords) ∨
      generate_blog env form_topic form_keywords =
        generate_general_hr_blog
          (if pyStrip form_topic = [] then S "HR Technology Trends" else pyStrip form_topic)
          (pyStrip form_keywords)) := by
  unfold generate_blog
  set topic := if pyStrip form_topic = [] then S "HR Technology Trends" else pyStrip form_topic
    with htopic
  by_cases hc : (containsSub (S "technology") (pyLower topic)
      || containsSub (S "tech") (pyLower topic)
      || containsSub (S "digital") (pyLower topic)) = true
  · rw [if_pos hc]
    have htech : generate_hr_tech_blog (pyStrip form_keywords) =
        generate_hr_tech_blog [] := rfl
    rw [htech]
    refine ⟨?_, ?_, ?_, Or.inl rfl⟩
    · simp only [generate_hr_tech_blog, List.append_assoc]
      exact isPrefixOf_append_of _ (by decide)
    · simp only [generate_hr_tech_blog, List.append_assoc]
      apply containsSub_append_right
      apply containsSub_append_left
      decide
    · simp only [generate_hr_tech_blog, List.append_assoc]
      apply containsSub_append_right
      apply containsSub_append_right
      decide
  · rw [if_neg hc]
    refine ⟨?_, ?_, ?_, Or.inr rfl⟩
    · simp only [generate_general_hr_blog, List.append_assoc]
      exact isPrefixOf_append_of _ (by decide)
    · simp only [generate_general_hr_blog, List.append_assoc]
      apply containsSub_append_right
      apply containsSub_append_right
      apply containsSub_append_left
      decide
    · simp only [generate_general_hr_blog, List.append_assoc]
      iterate 24 apply containsSub_append_right
      apply containsSub_append_left
      decide

end Blog
